import Mathlib

/-!
Shallow embedding of `src/win_notifer.py`, a timer-driven Windows sound
notifier.  The observable behaviour of the script is modelled as a trace of
events (console prints, `winsound` calls, `time.sleep` calls) produced by
pure functions.  Exceptions raised by the platform calls and interrupts
delivered during a sleep are injected through an explicit environment, and
Python exception semantics (`RuntimeError` and other `Exception` subclasses
are caught by the handlers in `play_windows_notification`;
`KeyboardInterrupt` derives from `BaseException`, not `Exception`, and
propagates to the top-level handler) are reflected in the control flow of
the embedded functions.
-/

namespace WinNotifer

/-- A Python value that could be assigned to `INTERVAL_SECONDS`: an `int`,
a `float` (modelled as a rational), or a non-numeric value. -/
inductive PyValue where
  | intVal : Int → PyValue
  | floatVal : ℚ → PyValue
  | strVal : String → PyValue
deriving DecidableEq, Repr

/-- `isinstance(v, (int, float))` from line 32 of the source. -/
def PyValue.isNumber : PyValue → Bool
  | .intVal _ => true
  | .floatVal _ => true
  | .strVal _ => false

/-- `v <= 0` from line 32.  For a non-numeric value the comparison is never
evaluated in the source (short-circuit of `or`), so the value returned for
`strVal` is immaterial; `false` is chosen. -/
def PyValue.leZero : PyValue → Bool
  | .intVal n => n ≤ 0
  | .floatVal q => q ≤ 0
  | .strVal _ => false

/-- String rendering of the value, used by the f-string prints. -/
def PyValue.toStr : PyValue → String
  | .intVal n => toString n
  | .floatVal q => toString q
  | .strVal s => s

/-- The condition of the validation `if` on line 32:
`not isinstance(INTERVAL_SECONDS, (int, float)) or INTERVAL_SECONDS <= 0`. -/
def intervalInvalid (v : PyValue) : Bool :=
  !v.isNumber || v.leZero

/-- The configuration constants of lines 14-29 of the source. -/
structure Config where
  INTERVAL_SECONDS : PyValue
  SOUND_ALIAS : String
  USE_ALIAS : Bool
  BEEP_FREQUENCY : Int
  BEEP_DURATION : Int
  WAV_FILE : String
  USE_WAV : Bool
deriving DecidableEq, Repr

/-- The values shipped in the source (lines 15, 19, 20, 23, 24, 27, 28). -/
def defaultConfig : Config where
  INTERVAL_SECONDS := .intVal 300
  SOUND_ALIAS := "SystemAsterisk"
  USE_ALIAS := true
  BEEP_FREQUENCY := 1000
  BEEP_DURATION := 300
  WAV_FILE := "C:\\Windows\\Media\\notify.wav"
  USE_WAV := true

/-- `winsound.SND_ASYNC`. -/
def SND_ASYNC : Nat := 0x0001

/-- `winsound.SND_ALIAS`. -/
def SND_ALIAS : Nat := 0x00010000

/-- `winsound.SND_FILENAME`. -/
def SND_FILENAME : Nat := 0x00020000

/-- Identifies which `print` statement of the source produced a console
line (named by role; the text is carried alongside in the event). -/
inductive PrintSite where
  | platformError      -- line 8
  | intervalError      -- line 33
  | playingHeader      -- line 41
  | usingAlias         -- line 43
  | usingWav           -- line 46
  | usingBeep          -- line 50
  | winsoundError      -- line 53
  | checkHint          -- line 54
  | unexpectedPlayback -- line 56
  | startedBanner      -- line 60
  | intervalBanner     -- line 61
  | pressCtrlC         -- line 62
  | dashes             -- line 63
  | waiting            -- line 71
  | stoppedByUser      -- line 74
  | unexpectedTop      -- line 76
  | errorDetails       -- line 77
  | exiting            -- line 79
deriving DecidableEq, Repr

/-- An observable action of the script. -/
inductive Event where
  | printLine : PrintSite → String → Event
  | importWinsound : Event
  | playSoundCall : String → Nat → Event
  | beepCall : Int → Int → Event
  | sleepCall : PyValue → Event
deriving DecidableEq, Repr

/-- Whether the event is an invocation of a sound primitive
(`winsound.PlaySound` or `winsound.Beep`). -/
def Event.isPlayAttempt : Event → Bool
  | .playSoundCall _ _ => true
  | .beepCall _ _ => true
  | _ => false

/-- Whether the event is a `time.sleep` call. -/
def Event.isSleepCall : Event → Bool
  | .sleepCall _ => true
  | _ => false

/-- Whether the event is the "Waiting for N seconds..." print of line 71. -/
def Event.isWaitingPrint : Event → Bool
  | .printLine .waiting _ => true
  | _ => false

/-- Outcome of the `winsound` call inside the `try` block of
`play_windows_notification`, injected by the environment. -/
inductive PlayResult where
  | ok
  | runtimeError : String → PlayResult
  | otherException : String → PlayResult
  | keyboardInterrupt
deriving DecidableEq, Repr

/-- Outcome of the `time.sleep` call on line 72: it completes, it is cut
short by a `KeyboardInterrupt`, or it raises some other exception. -/
inductive SleepResult where
  | ok
  | interrupted
  | raisesException : String → SleepResult
deriving DecidableEq, Repr

/-- How the embedded `play_windows_notification` returns to its caller:
normally, or by a propagating `KeyboardInterrupt`. -/
inductive FnExit where
  | normal
  | interrupt
deriving DecidableEq, Repr

/-- The branch-specific print and `winsound` call of lines 42-51: the
`if USE_ALIAS / elif USE_WAV / else` dispatch. -/
def dispatchEvents (c : Config) : List Event :=
  if c.USE_ALIAS then
    [.printLine .usingAlias ("(Using alias: " ++ c.SOUND_ALIAS ++ ")"),
     .playSoundCall c.SOUND_ALIAS SND_ALIAS]
  else if c.USE_WAV then
    [.printLine .usingWav ("(Using WAV file: " ++ c.WAV_FILE ++ ")"),
     .playSoundCall c.WAV_FILE (SND_FILENAME ||| SND_ASYNC)]
  else
    [.printLine .usingBeep
       ("(Using Beep: " ++ toString c.BEEP_FREQUENCY ++ " Hz, " ++
        toString c.BEEP_DURATION ++ " ms)"),
     .beepCall c.BEEP_FREQUENCY c.BEEP_DURATION]

/-- The sound-primitive event the dispatch of lines 42-51 emits. -/
def dispatchCall (c : Config) : Event :=
  if c.USE_ALIAS then .playSoundCall c.SOUND_ALIAS SND_ALIAS
  else if c.USE_WAV then .playSoundCall c.WAV_FILE (SND_FILENAME ||| SND_ASYNC)
  else .beepCall c.BEEP_FREQUENCY c.BEEP_DURATION

/-- `play_windows_notification` (lines 38-56).  `now` is the rendered
timestamp of `datetime.datetime.now()`; `r` is the injected outcome of the
`winsound` call.  The `winsound` call event is always recorded (the call is
made before it can raise); the two `except` clauses catch `RuntimeError`
and `Exception` and print their messages, while a `KeyboardInterrupt`
matches neither handler and propagates. -/
def play_windows_notification (c : Config) (now : String) (r : PlayResult) :
    List Event × FnExit :=
  let body := Event.printLine .playingHeader (now ++ " - Playing notification...")
    :: dispatchEvents c
  match r with
  | .ok => (body, .normal)
  | .runtimeError msg =>
      (body ++
        [.printLine .winsoundError ("\nError playing sound with winsound: " ++ msg),
         .printLine .checkHint
           "Check if the sound alias/file exists or if another sound is playing."],
       .normal)
  | .otherException msg =>
      (body ++
        [.printLine .unexpectedPlayback
           ("\nAn unexpected error occurred during sound playback: " ++ msg)],
       .normal)
  | .keyboardInterrupt => (body, .interrupt)

/-- Environment of one loop iteration: the injected outcome of its
`winsound` call and of its `time.sleep`. -/
structure IterEnv where
  play : PlayResult
  sleep : SleepResult
deriving DecidableEq, Repr

/-- How one iteration of the `while True` loop (lines 66-72) ends. -/
inductive IterResult where
  | next
  | interrupted
  | excRaised : String → IterResult
deriving DecidableEq, Repr

/-- The f-string of line 71. -/
def waitingMsg (c : Config) : String :=
  "Waiting for " ++ c.INTERVAL_SECONDS.toStr ++ " seconds..."

/-- One iteration of the loop body (lines 67-72): call
`play_windows_notification`, then print the waiting message and sleep.
A `KeyboardInterrupt` propagating out of the playback call skips the rest
of the body; otherwise the sleep runs and its injected outcome decides
whether the iteration completes, is interrupted, or raises. -/
def runIteration (c : Config) (now : String) (e : IterEnv) :
    List Event × IterResult :=
  let p := play_windows_notification c now e.play
  match p.2 with
  | .interrupt => (p.1, .interrupted)
  | .normal =>
    let evs := p.1 ++ [.printLine .waiting (waitingMsg c),
                       .sleepCall c.INTERVAL_SECONDS]
    match e.sleep with
    | .ok => (evs, .next)
    | .interrupted => (evs, .interrupted)
    | .raisesException msg => (evs, .excRaised msg)

/-- The iteration outcome determined by the environment alone. -/
def iterOutcome (e : IterEnv) : IterResult :=
  if e.play = .keyboardInterrupt then .interrupted
  else
    match e.sleep with
    | .ok => .next
    | .interrupted => .interrupted
    | .raisesException msg => .excRaised msg

/-- How the `while True` loop ends within the given fuel. -/
inductive LoopExit where
  | interrupted
  | excRaised : String → LoopExit
  | stillRunning
deriving DecidableEq, Repr

/-- The `while True` loop of lines 66-72, unrolled for `fuel` iterations
starting at iteration index `k`.  `env i` gives the injected outcomes of
iteration `i` and `clock i` its rendered timestamp.  The loop itself never
terminates; `fuel` only bounds the observation window
(`.stillRunning` marks an exhausted window, not a program exit). -/
def runLoop (c : Config) (env : Nat → IterEnv) (clock : Nat → String) :
    Nat → Nat → List Event × LoopExit
  | _, 0 => ([], .stillRunning)
  | k, fuel + 1 =>
    match (runIteration c (clock k) (env k)).2 with
    | .interrupted => ((runIteration c (clock k) (env k)).1, .interrupted)
    | .excRaised msg => ((runIteration c (clock k) (env k)).1, .excRaised msg)
    | .next =>
      ((runIteration c (clock k) (env k)).1 ++
         (runLoop c env clock (k + 1) fuel).1,
       (runLoop c env clock (k + 1) fuel).2)

/-- Concatenated traces of iterations `j, j+1, ..., j+n-1`, all of which
complete normally. -/
def loopTrace (c : Config) (env : Nat → IterEnv) (clock : Nat → String) :
    Nat → Nat → List Event
  | _, 0 => []
  | j, n + 1 =>
    (runIteration c (clock j) (env j)).1 ++ loopTrace c env clock (j + 1) n

/-- Final state of the modelled process: exited with a status code, or the
observation window ended with the loop still running. -/
inductive ProcState where
  | exited : Int → ProcState
  | running : ProcState
deriving DecidableEq, Repr

/-- The message of line 74. -/
def stoppedMsg : String := "\n--- Notification Script Stopped by User ---"

/-- The message of line 76. -/
def unexpectedMsg : String := "\n--- An Unexpected Error Occurred ---"

/-- The message of line 79, printed by the `finally` block on every exit path
of the `try` around the loop. -/
def exitingMsg : String := "Exiting."

/-- The message of line 8. -/
def platformErrorMsg : String :=
  "Error: This script uses \x27winsound\x27 and is designed for Windows only."

/-- The f-string of line 33. -/
def intervalErrorMsg (c : Config) : String :=
  "Error: INTERVAL_SECONDS must be a positive number. Found: " ++
    c.INTERVAL_SECONDS.toStr

/-- The banner prints of lines 60-63 (`"-" * 55` for the rule). -/
def bannerEvents (c : Config) : List Event :=
  [.printLine .startedBanner
     "--- Windows Notification Script Started (using winsound) ---",
   .printLine .intervalBanner
     ("Triggering sound every " ++ c.INTERVAL_SECONDS.toStr ++ " seconds."),
   .printLine .pressCtrlC "Press Ctrl+C to stop.",
   .printLine .dashes (String.mk (List.replicate 55 '-'))]

/-- The `try/except/except/finally` of lines 65-79 around the loop.  A
`KeyboardInterrupt` unwinding the loop prints the stopped-by-user line;
any other `Exception` prints the unexpected-error lines; both then run
the `finally` print and fall off the end of the module, which in Python
terminates the process with status 0. -/
def mainAfterBanner (c : Config) (env : Nat → IterEnv) (clock : Nat → String)
    (fuel : Nat) : List Event × ProcState :=
  let l := runLoop c env clock 0 fuel
  match l.2 with
  | .stillRunning => (l.1, .running)
  | .interrupted =>
      (l.1 ++ [.printLine .stoppedByUser stoppedMsg,
               .printLine .exiting exitingMsg],
       .exited 0)
  | .excRaised msg =>
      (l.1 ++ [.printLine .unexpectedTop unexpectedMsg,
               .printLine .errorDetails ("Error details: " ++ msg),
               .printLine .exiting exitingMsg],
       .exited 0)

/-- The whole script run as `__main__` on host platform `hostPlatform`:
the platform guard of lines 7-9 (printing and calling `sys.exit(1)` on a
non-Windows host, before the `winsound` import and everything else), the
`import winsound` of line 12, the interval validation of lines 32-34
(printing and calling `sys.exit(1)` on an invalid interval, before the
banner and the loop), then the banner and the guarded loop. -/
def script (hostPlatform : String) (c : Config) (env : Nat → IterEnv)
    (clock : Nat → String) (fuel : Nat) : List Event × ProcState :=
  if hostPlatform ≠ "Windows" then
    ([.printLine .platformError platformErrorMsg], .exited 1)
  else if intervalInvalid c.INTERVAL_SECONDS then
    ([.importWinsound, .printLine .intervalError (intervalErrorMsg c)],
     .exited 1)
  else
    let m := mainAfterBanner c env clock fuel
    (Event.importWinsound :: (bannerEvents c ++ m.1), m.2)

/-! ### Basic lemmas about the embedding -/

/-- `play_windows_notification` propagates (as `FnExit.interrupt`) exactly
when the injected outcome is a `KeyboardInterrupt`. -/
theorem play_exit_eq (c : Config) (now : String) (r : PlayResult) :
    (play_windows_notification c now r).2 =
      (if r = .keyboardInterrupt then .interrupt else .normal) := by
  cases r <;> rfl

/-- The result of an iteration depends only on its environment. -/
theorem runIteration_snd (c : Config) (now : String) (e : IterEnv) :
    (runIteration c now e).2 = iterOutcome e := by
  rcases e with ⟨p, s⟩
  cases p <;> cases s <;> rfl

/-- Every `play_windows_notification` trace contains exactly one sound
primitive invocation. -/
theorem play_countP_one (c : Config) (now : String) (r : PlayResult) :
    (play_windows_notification c now r).1.countP Event.isPlayAttempt = 1 := by
  cases hA : c.USE_ALIAS <;> cases hW : c.USE_WAV <;> cases r <;>
    simp [play_windows_notification, dispatchEvents, hA, hW,
      Event.isPlayAttempt, List.countP_cons, List.countP_append]

/-- Every iteration trace contains exactly one sound primitive
invocation. -/
theorem iteration_countP_one (c : Config) (now : String) (e : IterEnv) :
    (runIteration c now e).1.countP Event.isPlayAttempt = 1 := by
  rcases e with ⟨p, s⟩
  have h := play_countP_one c now p
  cases hp : (play_windows_notification c now p).2 <;> cases s <;>
    simp [runIteration, hp, List.countP_append, List.countP_cons,
      Event.isPlayAttempt, h]

/-- Unfolding `runLoop` one step when the iteration completes normally. -/
theorem runLoop_next_step (c : Config) (env : Nat → IterEnv)
    (clock : Nat → String) (k fuel : Nat)
    (h : iterOutcome (env k) = .next) :
    runLoop c env clock k (fuel + 1) =
      ((runIteration c (clock k) (env k)).1 ++
         (runLoop c env clock (k + 1) fuel).1,
       (runLoop c env clock (k + 1) fuel).2) := by
  have h2 : (runIteration c (clock k) (env k)).2 = .next := by
    rw [runIteration_snd]; exact h
  simp [runLoop, h2]

/-- Splitting `runLoop` after `n` normally completing iterations. -/
theorem runLoop_split (c : Config) (env : Nat → IterEnv)
    (clock : Nat → String) :
    ∀ n j fuel, (∀ i, i < n → iterOutcome (env (j + i)) = .next) →
      runLoop c env clock j (n + fuel) =
        (loopTrace c env clock j n ++ (runLoop c env clock (j + n) fuel).1,
         (runLoop c env clock (j + n) fuel).2) := by
  intro n
  induction n with
  | zero => intro j fuel _; simp [loopTrace]
  | succ m ih =>
    intro j fuel h
    have h0 : iterOutcome (env j) = .next := by
      have := h 0 (Nat.succ_pos m); simpa using this
    have hstep := runLoop_next_step c env clock j (m + fuel) h0
    have hrest := ih (j + 1) fuel (fun i hi => by
      have := h (i + 1) (Nat.succ_lt_succ hi)
      simpa [Nat.add_assoc, Nat.add_comm 1 i] using this)
    have harith : m + 1 + fuel = m + fuel + 1 := by omega
    rw [harith, hstep, hrest]
    have : j + 1 + m = j + (m + 1) := by omega
    simp [loopTrace, this, List.append_assoc]

/-- Exactly `n` sound-primitive invocations in `n` completed iterations. -/
theorem loopTrace_countP (c : Config) (env : Nat → IterEnv)
    (clock : Nat → String) :
    ∀ n j, (loopTrace c env clock j n).countP Event.isPlayAttempt = n := by
  intro n
  induction n with
  | zero => intro j; simp [loopTrace]
  | succ m ih =>
    intro j
    simp [loopTrace, List.countP_append, ih (j + 1),
      iteration_countP_one c (clock j) (env j), Nat.add_comm]

/-- An environment in which every winsound call and every sleep succeeds. -/
def envAllOk : Nat → IterEnv := fun _ => ⟨.ok, .ok⟩

/-- A concrete clock used by witnesses. -/
def clock0 : Nat → String := fun _ => "2026-01-01 00:00:00"

/-- The shipped configuration with `INTERVAL_SECONDS` set to `0`. -/
def zeroIntervalConfig : Config :=
  { defaultConfig with INTERVAL_SECONDS := .intVal 0 }

/-! ### Claim theorems -/

/-- C4: on a host platform other than Windows the script prints the
platform-mismatch error and exits with status 1; its trace contains no
`winsound` import, no interval-validation error, no waiting message and no
sound-emission attempt — the guard fires before everything else. -/
theorem c4_platform_guard (host : String) (c : Config) (env : Nat → IterEnv)
    (clock : Nat → String) (fuel : Nat) (h : host ≠ "Windows") :
    script host c env clock fuel =
      ([.printLine .platformError platformErrorMsg], .exited 1) ∧
    Event.importWinsound ∉ (script host c env clock fuel).1 ∧
    (∀ s, Event.printLine .intervalError s ∉ (script host c env clock fuel).1) ∧
    (∀ s, Event.printLine .waiting s ∉ (script host c env clock fuel).1) ∧
    (script host c env clock fuel).1.countP Event.isPlayAttempt = 0 := by
  have hs : script host c env clock fuel =
      ([.printLine .platformError platformErrorMsg], .exited 1) := by
    simp [script, h]
  refine ⟨hs, ?_, ?_, ?_, ?_⟩ <;>
    simp [hs, Event.isPlayAttempt, List.countP_cons]

/-- Witness for C4 at host "Linux" with the shipped configuration. -/
theorem c4_platform_guard_witness :
    ("Linux" ≠ "Windows") ∧
    (script "Linux" defaultConfig envAllOk clock0 0 =
      ([.printLine .platformError platformErrorMsg], .exited 1) ∧
    Event.importWinsound ∉ (script "Linux" defaultConfig envAllOk clock0 0).1 ∧
    (∀ s, Event.printLine .intervalError s
        ∉ (script "Linux" defaultConfig envAllOk clock0 0).1) ∧
    (∀ s, Event.printLine .waiting s
        ∉ (script "Linux" defaultConfig envAllOk clock0 0).1) ∧
    (script "Linux" defaultConfig envAllOk clock0 0).1.countP
        Event.isPlayAttempt = 0) :=
  ⟨by decide, c4_platform_guard "Linux" defaultConfig envAllOk clock0 0
    (by decide)⟩

/-- C3: on Windows, a non-numeric or non-positive `INTERVAL_SECONDS` makes
the script print the configuration error and exit with status 1; the trace
contains no waiting message, no sound-emission attempt and no sleep — the
program never enters the loop. -/
theorem c3_interval_validation (c : Config) (env : Nat → IterEnv)
    (clock : Nat → String) (fuel : Nat)
    (h : c.INTERVAL_SECONDS.isNumber = false ∨ c.INTERVAL_SECONDS.leZero = true) :
    script "Windows" c env clock fuel =
      ([.importWinsound, .printLine .intervalError (intervalErrorMsg c)],
       .exited 1) ∧
    (∀ s, Event.printLine .waiting s ∉ (script "Windows" c env clock fuel).1) ∧
    (script "Windows" c env clock fuel).1.countP Event.isPlayAttempt = 0 ∧
    (∀ v, Event.sleepCall v ∉ (script "Windows" c env clock fuel).1) := by
  have hinv : intervalInvalid c.INTERVAL_SECONDS = true := by
    rcases h with h | h <;> simp [intervalInvalid, h]
  have hs : script "Windows" c env clock fuel =
      ([.importWinsound, .printLine .intervalError (intervalErrorMsg c)],
       .exited 1) := by
    simp [script, hinv]
  refine ⟨hs, ?_, ?_, ?_⟩ <;>
    simp [hs, Event.isPlayAttempt, List.countP_cons]

/-- Witness for C3 with `INTERVAL_SECONDS = 0`. -/
theorem c3_interval_validation_witness :
    (zeroIntervalConfig.INTERVAL_SECONDS.isNumber = false ∨
      zeroIntervalConfig.INTERVAL_SECONDS.leZero = true) ∧
    (script "Windows" zeroIntervalConfig envAllOk clock0 5 =
      ([.importWinsound,
        .printLine .intervalError (intervalErrorMsg zeroIntervalConfig)],
       .exited 1) ∧
    (∀ s, Event.printLine .waiting s
        ∉ (script "Windows" zeroIntervalConfig envAllOk clock0 5).1) ∧
    (script "Windows" zeroIntervalConfig envAllOk clock0 5).1.countP
        Event.isPlayAttempt = 0 ∧
    (∀ v, Event.sleepCall v
        ∉ (script "Windows" zeroIntervalConfig envAllOk clock0 5).1)) :=
  ⟨Or.inr (by decide),
   c3_interval_validation zeroIntervalConfig envAllOk clock0 5
     (Or.inr (by decide))⟩

/-- A one-iteration observation window records exactly the trace of that iteration, namely its
trace, whatever its outcome. -/
theorem runLoop_one_fst (c : Config) (env : Nat → IterEnv)
    (clock : Nat → String) (j : Nat) :
    (runLoop c env clock j 1).1 = (runIteration c (clock j) (env j)).1 := by
  have h := runIteration_snd c (clock j) (env j)
  cases ho : iterOutcome (env j) <;>
    simp [runLoop, runIteration_snd, ho]

/-- An iteration completes normally exactly when its winsound call does
not raise `KeyboardInterrupt` and its sleep completes. -/
theorem iterOutcome_next_iff (e : IterEnv) :
    iterOutcome e = .next ↔
      (e.play ≠ .keyboardInterrupt ∧ e.sleep = .ok) := by
  rcases e with ⟨p, s⟩
  cases p <;> cases s <;> simp [iterOutcome]

/-- C1: a playback failure (a `RuntimeError` or any other `Exception`
raised by the winsound call) in iteration `k` is caught: the iteration
prints the descriptive message of the handler, still reaches the waiting print
and the sleep, completes normally, and the next iteration still makes its playback
attempt still occurs (its trace follows directly in the two-iteration
window and contains exactly one sound-primitive invocation). -/
theorem c1_failure_isolation (c : Config) (env : Nat → IterEnv)
    (clock : Nat → String) (k : Nat) (msg : String)
    (hfail : (env k).play = .runtimeError msg ∨
      (env k).play = .otherException msg)
    (hsleep : (env k).sleep = .ok) :
    (runIteration c (clock k) (env k)).2 = .next ∧
    ((env k).play = .runtimeError msg →
      Event.printLine .winsoundError
          ("\nError playing sound with winsound: " ++ msg)
        ∈ (runIteration c (clock k) (env k)).1) ∧
    ((env k).play = .otherException msg →
      Event.printLine .unexpectedPlayback
          ("\nAn unexpected error occurred during sound playback: " ++ msg)
        ∈ (runIteration c (clock k) (env k)).1) ∧
    Event.printLine .waiting (waitingMsg c)
      ∈ (runIteration c (clock k) (env k)).1 ∧
    Event.sleepCall c.INTERVAL_SECONDS ∈ (runIteration c (clock k) (env k)).1 ∧
    (runLoop c env clock k 2).1 =
      (runIteration c (clock k) (env k)).1 ++
        (runIteration c (clock (k + 1)) (env (k + 1))).1 ∧
    (runIteration c (clock (k + 1)) (env (k + 1))).1.countP
        Event.isPlayAttempt = 1 := by
  have hnotki : (env k).play ≠ .keyboardInterrupt := by
    rcases hfail with h | h <;> simp [h]
  have hnext : iterOutcome (env k) = .next :=
    (iterOutcome_next_iff (env k)).2 ⟨hnotki, hsleep⟩
  have hsnd : (runIteration c (clock k) (env k)).2 = .next := by
    rw [runIteration_snd]; exact hnext
  refine ⟨hsnd, ?_, ?_, ?_, ?_, ?_, ?_⟩
  · intro hr
    simp [runIteration, play_windows_notification, hr, hsleep]
  · intro hr
    simp [runIteration, play_windows_notification, hr, hsleep]
  · rcases hfail with h | h <;>
      simp [runIteration, play_windows_notification, h, hsleep]
  · rcases hfail with h | h <;>
      simp [runIteration, play_windows_notification, h, hsleep]
  · have hstep := runLoop_next_step c env clock k 1 hnext
    rw [show (2 : Nat) = 1 + 1 from rfl, hstep, runLoop_one_fst]
  · exact iteration_countP_one c (clock (k + 1)) (env (k + 1))

/-- An environment where only the winsound call of iteration 0 raises a
`RuntimeError`; every sleep completes. -/
def envFail0 : Nat → IterEnv := fun i =>
  if i = 0 then ⟨.runtimeError "device busy", .ok⟩ else ⟨.ok, .ok⟩

/-- Witness for C1 at iteration 0 with a `RuntimeError`. -/
theorem c1_failure_isolation_witness :
    ((envFail0 0).play = .runtimeError "device busy" ∨
      (envFail0 0).play = .otherException "device busy") ∧
    (envFail0 0).sleep = .ok ∧
    ((runIteration defaultConfig (clock0 0) (envFail0 0)).2 = .next ∧
    ((envFail0 0).play = .runtimeError "device busy" →
      Event.printLine .winsoundError
          ("\nError playing sound with winsound: " ++ "device busy")
        ∈ (runIteration defaultConfig (clock0 0) (envFail0 0)).1) ∧
    ((envFail0 0).play = .otherException "device busy" →
      Event.printLine .unexpectedPlayback
          ("\nAn unexpected error occurred during sound playback: " ++
            "device busy")
        ∈ (runIteration defaultConfig (clock0 0) (envFail0 0)).1) ∧
    Event.printLine .waiting (waitingMsg defaultConfig)
      ∈ (runIteration defaultConfig (clock0 0) (envFail0 0)).1 ∧
    Event.sleepCall defaultConfig.INTERVAL_SECONDS
      ∈ (runIteration defaultConfig (clock0 0) (envFail0 0)).1 ∧
    (runLoop defaultConfig envFail0 clock0 0 2).1 =
      (runIteration defaultConfig (clock0 0) (envFail0 0)).1 ++
        (runIteration defaultConfig (clock0 1) (envFail0 1)).1 ∧
    (runIteration defaultConfig (clock0 1) (envFail0 1)).1.countP
        Event.isPlayAttempt = 1) :=
  ⟨Or.inl rfl, rfl,
   c1_failure_isolation defaultConfig envFail0 clock0 0 "device busy"
     (Or.inl rfl) rfl⟩

/-- `play_windows_notification` never prints the waiting line. -/
theorem play_countP_waiting (c : Config) (now : String) (r : PlayResult) :
    (play_windows_notification c now r).1.countP Event.isWaitingPrint = 0 := by
  cases hA : c.USE_ALIAS <;> cases hW : c.USE_WAV <;> cases r <;>
    simp [play_windows_notification, dispatchEvents, hA, hW,
      Event.isWaitingPrint, List.countP_cons, List.countP_append]

/-- A normally completing iteration prints the waiting line exactly
once. -/
theorem iteration_countP_waiting (c : Config) (now : String) (e : IterEnv)
    (h : iterOutcome e = .next) :
    (runIteration c now e).1.countP Event.isWaitingPrint = 1 := by
  rcases (iterOutcome_next_iff e).1 h with ⟨hp, hs⟩
  have hexit : (play_windows_notification c now e.play).2 = .normal := by
    rw [play_exit_eq]; simp [hp]
  have h0 := play_countP_waiting c now e.play
  simp [runIteration, hexit, hs, List.countP_append, List.countP_cons,
    Event.isWaitingPrint, h0]

/-- C6: under a positive numeric interval and an environment in which
every iteration completes, each iteration performs exactly one
sound-emission attempt and one waiting print; when the winsound call
succeeds the trace of the iteration is exactly the timestamped playing line,
the dispatch, the waiting line, and a sleep whose argument is exactly
`INTERVAL_SECONDS`; and the `n`-iteration window never exits the loop and
holds exactly `n` sound-emission attempts. -/
theorem c6_iteration_structure (c : Config) (env : Nat → IterEnv)
    (clock : Nat → String) (n : Nat)
    (hpos : intervalInvalid c.INTERVAL_SECONDS = false)
    (hnext : ∀ i, iterOutcome (env i) = .next) :
    (∀ k, (runIteration c (clock k) (env k)).1.countP
        Event.isPlayAttempt = 1) ∧
    (∀ k, (runIteration c (clock k) (env k)).1.countP
        Event.isWaitingPrint = 1) ∧
    (∀ k, (env k).play = .ok →
      (runIteration c (clock k) (env k)).1 =
        Event.printLine .playingHeader
            (clock k ++ " - Playing notification...")
          :: dispatchEvents c ++
          [.printLine .waiting (waitingMsg c),
           .sleepCall c.INTERVAL_SECONDS]) ∧
    (runLoop c env clock 0 n).2 = .stillRunning ∧
    (runLoop c env clock 0 n).1.countP Event.isPlayAttempt = n := by
  have hsplit := runLoop_split c env clock n 0 0
    (fun i _ => by simpa using hnext i)
  refine ⟨fun k => iteration_countP_one c (clock k) (env k),
    fun k => iteration_countP_waiting c (clock k) (env k) (hnext k),
    ?_, ?_, ?_⟩
  · intro k hk
    have hs : (env k).sleep = .ok := ((iterOutcome_next_iff (env k)).1
      (hnext k)).2
    simp [runIteration, play_windows_notification, hk, hs]
  · rw [show n = n + 0 from rfl, hsplit]; rfl
  · rw [show n = n + 0 from rfl, hsplit]
    simp [runLoop, loopTrace_countP]

/-- Witness for C6 with the shipped configuration, an all-success
environment, and a three-iteration window. -/
theorem c6_iteration_structure_witness :
    intervalInvalid defaultConfig.INTERVAL_SECONDS = false ∧
    (∀ i, iterOutcome (envAllOk i) = .next) ∧
    ((∀ k, (runIteration defaultConfig (clock0 k) (envAllOk k)).1.countP
        Event.isPlayAttempt = 1) ∧
    (∀ k, (runIteration defaultConfig (clock0 k) (envAllOk k)).1.countP
        Event.isWaitingPrint = 1) ∧
    (∀ k, (envAllOk k).play = .ok →
      (runIteration defaultConfig (clock0 k) (envAllOk k)).1 =
        Event.printLine .playingHeader
            (clock0 k ++ " - Playing notification...")
          :: dispatchEvents defaultConfig ++
          [.printLine .waiting (waitingMsg defaultConfig),
           .sleepCall defaultConfig.INTERVAL_SECONDS]) ∧
    (runLoop defaultConfig envAllOk clock0 0 3).2 = .stillRunning ∧
    (runLoop defaultConfig envAllOk clock0 0 3).1.countP
        Event.isPlayAttempt = 3) :=
  ⟨rfl, fun _ => rfl,
   c6_iteration_structure defaultConfig envAllOk clock0 3 rfl fun _ => rfl⟩

/-- C7: each playback call invokes exactly the primitive matching the
configured mode with the parameters of that mode and prints a line identifying
the resource: the alias with `SND_ALIAS` in alias mode, the file path with
`SND_FILENAME ||| SND_ASYNC` in WAV mode, and `Beep(frequency, duration)`
in tone mode. -/
theorem c7_mode_dispatch (c : Config) (now : String) (r : PlayResult) :
    (c.USE_ALIAS = true →
      Event.printLine .usingAlias ("(Using alias: " ++ c.SOUND_ALIAS ++ ")")
          ∈ (play_windows_notification c now r).1 ∧
      Event.playSoundCall c.SOUND_ALIAS SND_ALIAS
          ∈ (play_windows_notification c now r).1) ∧
    (c.USE_ALIAS = false → c.USE_WAV = true →
      Event.printLine .usingWav ("(Using WAV file: " ++ c.WAV_FILE ++ ")")
          ∈ (play_windows_notification c now r).1 ∧
      Event.playSoundCall c.WAV_FILE (SND_FILENAME ||| SND_ASYNC)
          ∈ (play_windows_notification c now r).1) ∧
    (c.USE_ALIAS = false → c.USE_WAV = false →
      Event.printLine .usingBeep
          ("(Using Beep: " ++ toString c.BEEP_FREQUENCY ++ " Hz, " ++
            toString c.BEEP_DURATION ++ " ms)")
          ∈ (play_windows_notification c now r).1 ∧
      Event.beepCall c.BEEP_FREQUENCY c.BEEP_DURATION
          ∈ (play_windows_notification c now r).1) := by
  refine ⟨?_, ?_, ?_⟩
  · intro hA
    cases r <;>
      simp [play_windows_notification, dispatchEvents, hA]
  · intro hA hW
    cases r <;>
      simp [play_windows_notification, dispatchEvents, hA, hW]
  · intro hA hW
    cases r <;>
      simp [play_windows_notification, dispatchEvents, hA, hW]

/-- Witness for C7 with the shipped (alias-mode) configuration. -/
theorem c7_mode_dispatch_witness :
    defaultConfig.USE_ALIAS = true ∧
    ((defaultConfig.USE_ALIAS = true →
      Event.printLine .usingAlias
          ("(Using alias: " ++ defaultConfig.SOUND_ALIAS ++ ")")
          ∈ (play_windows_notification defaultConfig (clock0 0) .ok).1 ∧
      Event.playSoundCall defaultConfig.SOUND_ALIAS SND_ALIAS
          ∈ (play_windows_notification defaultConfig (clock0 0) .ok).1) ∧
    (defaultConfig.USE_ALIAS = false → defaultConfig.USE_WAV = true →
      Event.printLine .usingWav
          ("(Using WAV file: " ++ defaultConfig.WAV_FILE ++ ")")
          ∈ (play_windows_notification defaultConfig (clock0 0) .ok).1 ∧
      Event.playSoundCall defaultConfig.WAV_FILE (SND_FILENAME ||| SND_ASYNC)
          ∈ (play_windows_notification defaultConfig (clock0 0) .ok).1) ∧
    (defaultConfig.USE_ALIAS = false → defaultConfig.USE_WAV = false →
      Event.printLine .usingBeep
          ("(Using Beep: " ++ toString defaultConfig.BEEP_FREQUENCY ++
            " Hz, " ++ toString defaultConfig.BEEP_DURATION ++ " ms)")
          ∈ (play_windows_notification defaultConfig (clock0 0) .ok).1 ∧
      Event.beepCall defaultConfig.BEEP_FREQUENCY defaultConfig.BEEP_DURATION
          ∈ (play_windows_notification defaultConfig (clock0 0) .ok).1)) :=
  ⟨rfl, c7_mode_dispatch defaultConfig (clock0 0) .ok⟩

/-- C9: the dispatch is two booleans with priority Alias over WaveFile
over Tone — exactly one primitive per playback call; whenever `USE_ALIAS`
is true the alias primitive is the one invoked regardless of `USE_WAV`;
the WAV primitive only when `USE_ALIAS` is false and `USE_WAV` true; Beep
only when both are false; and with the shipped defaults (both flags true)
the WAV file is never played. -/
theorem c9_dispatch_priority (c : Config) (now : String) (r : PlayResult) :
    (play_windows_notification c now r).1.countP Event.isPlayAttempt = 1 ∧
    (c.USE_ALIAS = true →
      (play_windows_notification c now r).1.filter Event.isPlayAttempt =
        [.playSoundCall c.SOUND_ALIAS SND_ALIAS]) ∧
    (c.USE_ALIAS = false → c.USE_WAV = true →
      (play_windows_notification c now r).1.filter Event.isPlayAttempt =
        [.playSoundCall c.WAV_FILE (SND_FILENAME ||| SND_ASYNC)]) ∧
    (c.USE_ALIAS = false → c.USE_WAV = false →
      (play_windows_notification c now r).1.filter Event.isPlayAttempt =
        [.beepCall c.BEEP_FREQUENCY c.BEEP_DURATION]) ∧
    Event.playSoundCall defaultConfig.WAV_FILE (SND_FILENAME ||| SND_ASYNC)
      ∉ (play_windows_notification defaultConfig now r).1 := by
  refine ⟨play_countP_one c now r, ?_, ?_, ?_, ?_⟩
  · intro hA
    cases r <;>
      simp [play_windows_notification, dispatchEvents, hA,
        Event.isPlayAttempt]
  · intro hA hW
    cases r <;>
      simp [play_windows_notification, dispatchEvents, hA, hW,
        Event.isPlayAttempt]
  · intro hA hW
    cases r <;>
      simp [play_windows_notification, dispatchEvents, hA, hW,
        Event.isPlayAttempt]
  · cases r <;>
      simp [play_windows_notification, dispatchEvents, defaultConfig,
        SND_ALIAS, SND_FILENAME, SND_ASYNC]

/-- Witness for C9 with the shipped defaults (both flags true). -/
theorem c9_dispatch_priority_witness :
    defaultConfig.USE_ALIAS = true ∧ defaultConfig.USE_WAV = true ∧
    ((play_windows_notification defaultConfig (clock0 0) .ok).1.countP
        Event.isPlayAttempt = 1 ∧
    (defaultConfig.USE_ALIAS = true →
      (play_windows_notification defaultConfig (clock0 0) .ok).1.filter
          Event.isPlayAttempt =
        [.playSoundCall defaultConfig.SOUND_ALIAS SND_ALIAS]) ∧
    (defaultConfig.USE_ALIAS = false → defaultConfig.USE_WAV = true →
      (play_windows_notification defaultConfig (clock0 0) .ok).1.filter
          Event.isPlayAttempt =
        [.playSoundCall defaultConfig.WAV_FILE (SND_FILENAME ||| SND_ASYNC)]) ∧
    (defaultConfig.USE_ALIAS = false → defaultConfig.USE_WAV = false →
      (play_windows_notification defaultConfig (clock0 0) .ok).1.filter
          Event.isPlayAttempt =
        [.beepCall defaultConfig.BEEP_FREQUENCY defaultConfig.BEEP_DURATION]) ∧
    Event.playSoundCall defaultConfig.WAV_FILE (SND_FILENAME ||| SND_ASYNC)
      ∉ (play_windows_notification defaultConfig (clock0 0) .ok).1) :=
  ⟨rfl, rfl, c9_dispatch_priority defaultConfig (clock0 0) .ok⟩

/-- C10: `play_windows_notification` propagates to its caller exactly the
`KeyboardInterrupt` outcomes — every `RuntimeError` or other `Exception`
from the winsound call returns normally (it was caught by a handler) — and
an iteration can only raise an exception past the playback function when
the sleep, outside the playback `try` block, raises it. -/
theorem c10_exception_containment (c : Config) (now : String) (e : IterEnv)
    (msg : String) :
    ((play_windows_notification c now e.play).2 = .interrupt ↔
      e.play = .keyboardInterrupt) ∧
    ((e.play = .runtimeError msg ∨ e.play = .otherException msg) →
      (play_windows_notification c now e.play).2 = .normal) ∧
    ((runIteration c now e).2 = .excRaised msg ↔
      (e.play ≠ .keyboardInterrupt ∧ e.sleep = .raisesException msg)) ∧
    ((runIteration c now e).2 = .interrupted ↔
      (e.play = .keyboardInterrupt ∨
        (e.sleep = .interrupted ∧ e.play ≠ .keyboardInterrupt))) := by
  refine ⟨?_, ?_, ?_, ?_⟩
  · rw [play_exit_eq]
    rcases e with ⟨p, s⟩
    cases p <;> simp
  · intro h
    rw [play_exit_eq]
    rcases h with h | h <;> simp [h]
  · rw [runIteration_snd]
    rcases e with ⟨p, s⟩
    cases p <;> cases s <;> simp [iterOutcome]
  · rw [runIteration_snd]
    rcases e with ⟨p, s⟩
    cases p <;> cases s <;> simp [iterOutcome]

/-- Witness for C10 with an `Exception`-class playback failure. -/
theorem c10_exception_containment_witness :
    ((play_windows_notification defaultConfig (clock0 0)
        (IterEnv.mk (.otherException "boom") .ok).play).2 = .interrupt ↔
      (IterEnv.mk (.otherException "boom") .ok).play = .keyboardInterrupt) ∧
    (((IterEnv.mk (.otherException "boom") .ok).play =
          .runtimeError "boom" ∨
      (IterEnv.mk (.otherException "boom") .ok).play =
          .otherException "boom") →
      (play_windows_notification defaultConfig (clock0 0)
        (IterEnv.mk (.otherException "boom") .ok).play).2 = .normal) ∧
    ((runIteration defaultConfig (clock0 0)
        (IterEnv.mk (.otherException "boom") .ok)).2 = .excRaised "boom" ↔
      ((IterEnv.mk (.otherException "boom") .ok).play ≠
          .keyboardInterrupt ∧
        (IterEnv.mk (.otherException "boom") .ok).sleep =
          .raisesException "boom")) ∧
    ((runIteration defaultConfig (clock0 0)
        (IterEnv.mk (.otherException "boom") .ok)).2 = .interrupted ↔
      ((IterEnv.mk (.otherException "boom") .ok).play =
          .keyboardInterrupt ∨
        ((IterEnv.mk (.otherException "boom") .ok).sleep = .interrupted ∧
          (IterEnv.mk (.otherException "boom") .ok).play ≠
            .keyboardInterrupt))) :=
  c10_exception_containment defaultConfig (clock0 0)
    (IterEnv.mk (.otherException "boom") .ok) "boom"

/-- The per-event configuration-uniformity property used by C8: every
sleep in a trace sleeps for the configured interval and every sound
primitive is the configured dispatch. -/
theorem iteration_events_config (c : Config) (now : String) (e : IterEnv)
    (ev : Event) (hev : ev ∈ (runIteration c now e).1) :
    (ev.isSleepCall = true → ev = .sleepCall c.INTERVAL_SECONDS) ∧
    (ev.isPlayAttempt = true → ev = dispatchCall c) := by
  rcases e with ⟨p, s⟩
  cases hA : c.USE_ALIAS <;> cases hW : c.USE_WAV <;> cases p <;> cases s <;>
    simp [runIteration, play_windows_notification, dispatchEvents,
      dispatchCall, hA, hW] at hev ⊢ <;>
    (repeat' rcases hev with rfl | hev) <;>
    first
      | (subst hev; simp [Event.isSleepCall, Event.isPlayAttempt])
      | simp [Event.isSleepCall, Event.isPlayAttempt]

/-- C8: the configuration read by the loop never changes — in every
observation window of the loop, every sleep event sleeps for the startup
`INTERVAL_SECONDS` and every sound-primitive event is the dispatch of the
startup configuration, at every iteration. -/
theorem c8_config_immutable (c : Config) (env : Nat → IterEnv)
    (clock : Nat → String) (j fuel : Nat) :
    ∀ ev ∈ (runLoop c env clock j fuel).1,
      (ev.isSleepCall = true → ev = .sleepCall c.INTERVAL_SECONDS) ∧
      (ev.isPlayAttempt = true → ev = dispatchCall c) := by
  induction fuel generalizing j with
  | zero => intro ev hev; simp [runLoop] at hev
  | succ m ih =>
    intro ev hev
    cases h : (runIteration c (clock j) (env j)).2 <;>
      simp only [runLoop, h] at hev
    · rcases List.mem_append.1 hev with hev | hev
      · exact iteration_events_config c (clock j) (env j) ev hev
      · exact ih (j + 1) ev hev
    · exact iteration_events_config c (clock j) (env j) ev hev
    · exact iteration_events_config c (clock j) (env j) ev hev

/-- Witness for C8: the sleep event of the first iteration of the shipped
configuration sleeps for the shipped interval. -/
theorem c8_config_immutable_witness :
    Event.sleepCall defaultConfig.INTERVAL_SECONDS
      ∈ (runLoop defaultConfig envAllOk clock0 0 1).1 ∧
    ((Event.sleepCall defaultConfig.INTERVAL_SECONDS).isSleepCall = true →
      Event.sleepCall defaultConfig.INTERVAL_SECONDS =
        .sleepCall defaultConfig.INTERVAL_SECONDS) ∧
    ((Event.sleepCall defaultConfig.INTERVAL_SECONDS).isPlayAttempt = true →
      Event.sleepCall defaultConfig.INTERVAL_SECONDS =
        dispatchCall defaultConfig) :=
  ⟨by decide,
   c8_config_immutable defaultConfig envAllOk clock0 0 1
     (Event.sleepCall defaultConfig.INTERVAL_SECONDS) (by decide)⟩

/-- If iterations `0..k-1` complete and iteration `k` is interrupted, the
trace of the loop is those iterations followed by iteration `k`, and the loop
exits as interrupted. -/
theorem runLoop_interrupted_at (c : Config) (env : Nat → IterEnv)
    (clock : Nat → String) (k fuel : Nat)
    (hbefore : ∀ i, i < k → iterOutcome (env i) = .next)
    (hk : iterOutcome (env k) = .interrupted)
    (hfuel : k + 1 ≤ fuel) :
    runLoop c env clock 0 fuel =
      (loopTrace c env clock 0 k ++ (runIteration c (clock k) (env k)).1,
       .interrupted) := by
  obtain ⟨m, rfl⟩ : ∃ m, fuel = k + (m + 1) :=
    ⟨fuel - k - 1, by omega⟩
  have hsplit := runLoop_split c env clock k 0 (m + 1)
    (fun i hi => by simpa using hbefore i hi)
  have h2 : (runIteration c (clock k) (env k)).2 = .interrupted := by
    rw [runIteration_snd]; exact hk
  rw [hsplit]
  simp [runLoop, h2]

/-- If iterations `0..k-1` complete and iteration `k` raises an exception
out of its sleep, the trace of the loop is those iterations followed by
iteration `k`, and the loop exits with that exception. -/
theorem runLoop_excRaised_at (c : Config) (env : Nat → IterEnv)
    (clock : Nat → String) (k fuel : Nat) (msg : String)
    (hbefore : ∀ i, i < k → iterOutcome (env i) = .next)
    (hk : iterOutcome (env k) = .excRaised msg)
    (hfuel : k + 1 ≤ fuel) :
    runLoop c env clock 0 fuel =
      (loopTrace c env clock 0 k ++ (runIteration c (clock k) (env k)).1,
       .excRaised msg) := by
  obtain ⟨m, rfl⟩ : ∃ m, fuel = k + (m + 1) :=
    ⟨fuel - k - 1, by omega⟩
  have hsplit := runLoop_split c env clock k 0 (m + 1)
    (fun i hi => by simpa using hbefore i hi)
  have h2 : (runIteration c (clock k) (env k)).2 = .excRaised msg := by
    rw [runIteration_snd]; exact hk
  rw [hsplit]
  simp [runLoop, h2]

/-- An iteration whose playback did not raise `KeyboardInterrupt` ends
with the waiting print and the sleep call. -/
theorem iteration_reaches_sleep (c : Config) (now : String) (e : IterEnv)
    (hplay : e.play ≠ .keyboardInterrupt) :
    ∃ pre, (runIteration c now e).1 =
      pre ++ [.printLine .waiting (waitingMsg c),
              .sleepCall c.INTERVAL_SECONDS] := by
  have hexit : (play_windows_notification c now e.play).2 = .normal := by
    rw [play_exit_eq]; simp [hplay]
  refine ⟨(play_windows_notification c now e.play).1, ?_⟩
  cases hs : e.sleep <;> simp [runIteration, hexit, hs]

/-- C2: with a valid interval, if iterations `0..k-1` complete and a
`KeyboardInterrupt` arrives during the sleep of iteration `k`, the script
trace is exactly the banner, those iterations (iteration `k` ending in its
sleep call), then the stopped-by-user line followed by the "Exiting."
line; nothing follows them (in particular no playback attempt — the trace
holds exactly `k + 1` attempts), and the process exits with status 0. -/
theorem c2_interrupt_shutdown (c : Config) (env : Nat → IterEnv)
    (clock : Nat → String) (k fuel : Nat)
    (hvalid : intervalInvalid c.INTERVAL_SECONDS = false)
    (hbefore : ∀ i, i < k → iterOutcome (env i) = .next)
    (hplay : (env k).play ≠ .keyboardInterrupt)
    (hsleep : (env k).sleep = .interrupted)
    (hfuel : k + 1 ≤ fuel) :
    script "Windows" c env clock fuel =
      (Event.importWinsound ::
        (bannerEvents c ++
          (loopTrace c env clock 0 k ++
            ((runIteration c (clock k) (env k)).1 ++
              [.printLine .stoppedByUser stoppedMsg,
               .printLine .exiting exitingMsg]))),
       .exited 0) ∧
    (∃ pre, (runIteration c (clock k) (env k)).1 =
      pre ++ [.printLine .waiting (waitingMsg c),
              .sleepCall c.INTERVAL_SECONDS]) ∧
    (script "Windows" c env clock fuel).1.countP Event.isPlayAttempt =
      k + 1 := by
  have hk : iterOutcome (env k) = .interrupted := by
    rcases hp : (env k).play <;> simp [iterOutcome, hp, hsleep] <;>
      exact absurd hp hplay
  have hloop := runLoop_interrupted_at c env clock k fuel hbefore hk hfuel
  have hscript : script "Windows" c env clock fuel =
      (Event.importWinsound ::
        (bannerEvents c ++
          (loopTrace c env clock 0 k ++
            ((runIteration c (clock k) (env k)).1 ++
              [.printLine .stoppedByUser stoppedMsg,
               .printLine .exiting exitingMsg]))),
       .exited 0) := by
    simp [script, hvalid, mainAfterBanner, hloop, List.append_assoc]
  refine ⟨hscript, iteration_reaches_sleep c (clock k) (env k) hplay, ?_⟩
  rw [hscript]
  simp [List.countP_append, List.countP_cons, loopTrace_countP,
    iteration_countP_one, bannerEvents, Event.isPlayAttempt]

/-- An environment where every sleep is cut short by `KeyboardInterrupt`. -/
def envSleepInt : Nat → IterEnv := fun _ => ⟨.ok, .interrupted⟩

/-- An environment where every sleep raises a non-interrupt exception. -/
def envSleepExc : Nat → IterEnv := fun _ => ⟨.ok, .raisesException "disk on fire"⟩

/-- Witness for C2: interrupt during the very first sleep of the shipped
configuration. -/
theorem c2_interrupt_shutdown_witness :
    intervalInvalid defaultConfig.INTERVAL_SECONDS = false ∧
    (envSleepInt 0).play ≠ .keyboardInterrupt ∧
    (envSleepInt 0).sleep = .interrupted ∧
    (script "Windows" defaultConfig envSleepInt clock0 1 =
      (Event.importWinsound ::
        (bannerEvents defaultConfig ++
          (loopTrace defaultConfig envSleepInt clock0 0 0 ++
            ((runIteration defaultConfig (clock0 0) (envSleepInt 0)).1 ++
              [.printLine .stoppedByUser stoppedMsg,
               .printLine .exiting exitingMsg]))),
       .exited 0) ∧
    (∃ pre, (runIteration defaultConfig (clock0 0) (envSleepInt 0)).1 =
      pre ++ [.printLine .waiting (waitingMsg defaultConfig),
              .sleepCall defaultConfig.INTERVAL_SECONDS]) ∧
    (script "Windows" defaultConfig envSleepInt clock0 1).1.countP
        Event.isPlayAttempt = 0 + 1) :=
  ⟨rfl, by decide, rfl,
   c2_interrupt_shutdown defaultConfig envSleepInt clock0 0 1 rfl
     (fun i hi => absurd hi (Nat.not_lt_zero i)) (by decide) rfl
     (by decide)⟩

/-- C5 counterexample: an unexpected top-level failure (an exception
raised by the sleep, uncaught by the playback handlers) makes the process
exit with status 0 — the very same status a user interrupt produces — so
the claimed "status distinguishable from the zero status of a user
interrupt" is false for the code. -/
theorem c5_counterexample :
    (script "Windows" defaultConfig envSleepExc clock0 1).2 = .exited 0 ∧
    (script "Windows" defaultConfig envSleepInt clock0 1).2 = .exited 0 ∧
    (script "Windows" defaultConfig envSleepExc clock0 1).2 =
      (script "Windows" defaultConfig envSleepInt clock0 1).2 := by
  refine ⟨?_, ?_, ?_⟩ <;> rfl

/-- C5 (amended): with a valid interval, an exception raised inside the
loop but outside the playback handlers (here: by the sleep) is caught once
at the outermost level, its details are printed, the same final "Exiting."
line is printed, and the process exits with status 0 — the same exit
status as a user interrupt; the unexpected-failure case is distinguishable
from the interrupt case only by its console output (its trace ends with
the unexpected-error and error-details lines before "Exiting.", not the
stopped-by-user line). -/
theorem c5_unexpected_failure (c : Config) (env : Nat → IterEnv)
    (clock : Nat → String) (k fuel : Nat) (msg : String)
    (hvalid : intervalInvalid c.INTERVAL_SECONDS = false)
    (hbefore : ∀ i, i < k → iterOutcome (env i) = .next)
    (hplay : (env k).play ≠ .keyboardInterrupt)
    (hsleep : (env k).sleep = .raisesException msg)
    (hfuel : k + 1 ≤ fuel) :
    script "Windows" c env clock fuel =
      (Event.importWinsound ::
        (bannerEvents c ++
          (loopTrace c env clock 0 k ++
            ((runIteration c (clock k) (env k)).1 ++
              [.printLine .unexpectedTop unexpectedMsg,
               .printLine .errorDetails ("Error details: " ++ msg),
               .printLine .exiting exitingMsg]))),
       .exited 0) ∧
    (∀ s, Event.printLine .stoppedByUser s ∉
      [Event.printLine .unexpectedTop unexpectedMsg,
       Event.printLine .errorDetails ("Error details: " ++ msg),
       Event.printLine .exiting exitingMsg]) := by
  have hk : iterOutcome (env k) = .excRaised msg := by
    rcases hp : (env k).play <;> simp [iterOutcome, hp, hsleep] <;>
      exact absurd hp hplay
  have hloop := runLoop_excRaised_at c env clock k fuel msg hbefore hk hfuel
  refine ⟨?_, ?_⟩
  · simp [script, hvalid, mainAfterBanner, hloop, List.append_assoc]
  · intro s
    simp

/-- Witness for the amended C5: the sleep of iteration 0 raises. -/
theorem c5_unexpected_failure_witness :
    intervalInvalid defaultConfig.INTERVAL_SECONDS = false ∧
    (envSleepExc 0).play ≠ .keyboardInterrupt ∧
    (envSleepExc 0).sleep = .raisesException "disk on fire" ∧
    (script "Windows" defaultConfig envSleepExc clock0 1 =
      (Event.importWinsound ::
        (bannerEvents defaultConfig ++
          (loopTrace defaultConfig envSleepExc clock0 0 0 ++
            ((runIteration defaultConfig (clock0 0) (envSleepExc 0)).1 ++
              [.printLine .unexpectedTop unexpectedMsg,
               .printLine .errorDetails ("Error details: " ++ "disk on fire"),
               .printLine .exiting exitingMsg]))),
       .exited 0) ∧
    (∀ s, Event.printLine .stoppedByUser s ∉
      [Event.printLine .unexpectedTop unexpectedMsg,
       Event.printLine .errorDetails ("Error details: " ++ "disk on fire"),
       Event.printLine .exiting exitingMsg])) :=
  ⟨rfl, by decide, rfl,
   c5_unexpected_failure defaultConfig envSleepExc clock0 0 1 "disk on fire"
     rfl (fun i hi => absurd hi (Nat.not_lt_zero i)) (by decide) rfl
     (by decide)⟩

end WinNotifer
